import Mathlib

/-!
Shallow embedding of the virtio network driver
(src/drivers/net/virtio_net.rs) for checking the natural-language
specification against the code.

Machine integers are modelled as Nat; the only integer operations the
embedded code performs on feature sets are bitwise and/or, which cannot
overflow, so no explicit truncation is needed there.
-/

namespace VirtioNet

/-- Feature bits of the virtio network device, from enum Features in
src/drivers/net/virtio_net.rs (constants module). -/
inductive Features where
  | VIRTIO_NET_F_CSUM
  | VIRTIO_NET_F_GUEST_CSUM
  | VIRTIO_NET_F_CTRL_GUEST_OFFLOADS
  | VIRTIO_NET_F_MTU
  | VIRTIO_NET_F_MAC
  | VIRTIO_NET_F_GUEST_TSO4
  | VIRTIO_NET_F_GUEST_TSO6
  | VIRTIO_NET_F_GUEST_ECN
  | VIRTIO_NET_F_GUEST_UFO
  | VIRTIO_NET_F_HOST_TSO4
  | VIRTIO_NET_F_HOST_TSO6
  | VIRTIO_NET_F_HOST_ECN
  | VIRTIO_NET_F_HOST_UFO
  | VIRTIO_NET_F_MRG_RXBUF
  | VIRTIO_NET_F_STATUS
  | VIRTIO_NET_F_CTRL_VQ
  | VIRTIO_NET_F_CTRL_RX
  | VIRTIO_NET_F_CTRL_VLAN
  | VIRTIO_NET_F_GUEST_ANNOUNCE
  | VIRTIO_NET_F_MQ
  | VIRTIO_NET_F_CTRL_MAC_ADDR
  | VIRTIO_F_RING_INDIRECT_DESC
  | VIRTIO_F_RING_EVENT_IDX
  | VIRTIO_F_VERSION_1
  | VIRTIO_F_ACCESS_PLATFORM
  | VIRTIO_F_RING_PACKED
  | VIRTIO_F_IN_ORDER
  | VIRTIO_F_ORDER_PLATFORM
  | VIRTIO_F_SR_IOV
  | VIRTIO_F_NOTIFICATION_DATA
  | VIRTIO_NET_F_GUEST_HDRLEN
  | VIRTIO_NET_F_RSC_EXT
  | VIRTIO_NET_F_STANDBY
deriving DecidableEq, Repr, Fintype

/-- Bit position of each feature, as in the repr(u64) discriminants
(each discriminant in the source is written 1 << k). -/
def Features.bitIndex : Features → Nat
  | .VIRTIO_NET_F_CSUM => 0
  | .VIRTIO_NET_F_GUEST_CSUM => 1
  | .VIRTIO_NET_F_CTRL_GUEST_OFFLOADS => 2
  | .VIRTIO_NET_F_MTU => 3
  | .VIRTIO_NET_F_MAC => 5
  | .VIRTIO_NET_F_GUEST_TSO4 => 7
  | .VIRTIO_NET_F_GUEST_TSO6 => 8
  | .VIRTIO_NET_F_GUEST_ECN => 9
  | .VIRTIO_NET_F_GUEST_UFO => 10
  | .VIRTIO_NET_F_HOST_TSO4 => 11
  | .VIRTIO_NET_F_HOST_TSO6 => 12
  | .VIRTIO_NET_F_HOST_ECN => 13
  | .VIRTIO_NET_F_HOST_UFO => 14
  | .VIRTIO_NET_F_MRG_RXBUF => 15
  | .VIRTIO_NET_F_STATUS => 16
  | .VIRTIO_NET_F_CTRL_VQ => 17
  | .VIRTIO_NET_F_CTRL_RX => 18
  | .VIRTIO_NET_F_CTRL_VLAN => 19
  | .VIRTIO_NET_F_GUEST_ANNOUNCE => 21
  | .VIRTIO_NET_F_MQ => 22
  | .VIRTIO_NET_F_CTRL_MAC_ADDR => 23
  | .VIRTIO_F_RING_INDIRECT_DESC => 28
  | .VIRTIO_F_RING_EVENT_IDX => 29
  | .VIRTIO_F_VERSION_1 => 32
  | .VIRTIO_F_ACCESS_PLATFORM => 33
  | .VIRTIO_F_RING_PACKED => 34
  | .VIRTIO_F_IN_ORDER => 35
  | .VIRTIO_F_ORDER_PLATFORM => 36
  | .VIRTIO_F_SR_IOV => 37
  | .VIRTIO_F_NOTIFICATION_DATA => 38
  | .VIRTIO_NET_F_GUEST_HDRLEN => 59
  | .VIRTIO_NET_F_RSC_EXT => 61
  | .VIRTIO_NET_F_STANDBY => 62

/-- u64 value of a feature (the From Features for u64 impl): 1 << k. -/
def Features.toBits (f : Features) : Nat := 1 <<< f.bitIndex

/-- FeatureSet::is_feature: self.0 & feature != 0. The FeatureSet
new-type over u64 is modelled as a plain Nat. -/
def isFeature (s : Nat) (f : Features) : Bool := s &&& f.toBits != 0

/-- The |= accumulation of a list of features into a u64
(used by negotiate_features and FeatureSet::check_features). -/
def featureBits (fs : List Features) : Nat :=
  fs.foldl (fun acc f => acc ||| f.toBits) 0

/-- Error type of the driver (error module), restricted to the variants
the embedded code can produce. Feature sets are carried as Nat. -/
inductive VirtioNetError where
  | FailFeatureNeg (devId : Nat)
  | FeatureRequirementsNotMet (set : Nat)
  | IncompatibleFeatureSets (driverFeatures deviceFeatures : Nat)
deriving DecidableEq, Repr

/-! ### Checksum capability record (smoltcp ChecksumCapabilities)

The driver only ever reads and writes the tcp and udp fields, so the
record is modelled with exactly those two. The smoltcp Checksum enum has
the four variants Both, Rx, Tx, None; tx() is true for Both and Tx. -/

inductive Checksum where
  | Both
  | Rx
  | Tx
  | None
deriving DecidableEq, Repr

/-- smoltcp Checksum::tx(): should the stack compute the checksum when
sending. True for Both and Tx. -/
def Checksum.tx : Checksum → Bool
  | .Both => true
  | .Tx => true
  | _ => false

structure ChecksumCapabilities where
  tcp : Checksum
  udp : Checksum
deriving DecidableEq, Repr

/-- The smoltcp default: verify and compute everything in software. -/
def ChecksumCapabilities.default : ChecksumCapabilities := ⟨.Both, .Both⟩

/-- The checksum-capability derivation at the end of init_dev
(lines 881-907 of virtio_net.rs): an if / else-if chain on the two
checksum features over the prior value of self.checksums. -/
def deriveChecksums (features : Nat) (prior : ChecksumCapabilities) :
    ChecksumCapabilities :=
  if isFeature features .VIRTIO_NET_F_CSUM
      && isFeature features .VIRTIO_NET_F_GUEST_CSUM then
    ⟨Checksum.None, Checksum.None⟩
  else if isFeature features .VIRTIO_NET_F_CSUM then
    ⟨Checksum.Rx, Checksum.Rx⟩
  else if isFeature features .VIRTIO_NET_F_GUEST_CSUM then
    ⟨Checksum.Tx, Checksum.Tx⟩
  else
    prior

/-! ### handle_interrupt

VirtioNetDriver::handle_interrupt reads the ISR status. The two ISR
bits are passed as booleans. The result is none when the function does
not return (the config-change branch executes the todo! macro, which
panics); otherwise some (returnValue, ackedBeforeReturn), where the
second component records that isr_stat.acknowledge() ran before the
return. -/

def handleInterruptResult (isInterrupt isCfgChange : Bool) : Option Bool :=
  if isInterrupt then some true
  else if isCfgChange then none
  else some false

def handleInterrupt (isInterrupt isCfgChange : Bool) :
    Option (Bool × Bool) :=
  match handleInterruptResult isInterrupt isCfgChange with
  | none => none
  | some r => some (r, true)

/-! ### RX buffer sizing (RxQueues::add) -/

/-- mem::size_of::<VirtioNetHdr>(): the packed 12-byte header. -/
def virtioNetHdrSize : Nat := 12

/-- align_address::Align::align_up for a power-of-two alignment; the
source computes (x + align - 1) & !(align - 1), which for power-of-two
align equals rounding up to the next multiple. -/
def alignUp (x align : Nat) : Nat := ((x + align - 1) / align) * align

/-- The rx_size computation in RxQueues::add: with MRG_RXBUF the buffer
is (1514 + 12) aligned up to size_of::<crossbeam_utils::CachePadded<u8>>()
(the cache-line padding unit, passed here as padUnit); otherwise it is
device MTU + 12. -/
def rxBuffSize (features : Nat) (mtu padUnit : Nat) : Nat :=
  if isFeature features .VIRTIO_NET_F_MRG_RXBUF then
    alignUp (1514 + virtioNetHdrSize) padUnit
  else
    mtu + virtioNetHdrSize

/-- RxQueues::add posts vq.size() many single-descriptor buffers, all of
size rx_size. The list records the buffer sizes posted to the ring. -/
def rxAddBufferSizes (ringSize : Nat) (features : Nat) (mtu padUnit : Nat) :
    List Nat :=
  List.replicate ringSize (rxBuffSize features mtu padUnit)

/-! ### FeatureSet::check_features -/

/-- The per-feature test of the big match in FeatureSet::check_features:
true means the arm is continue, false means the arm returns
FeatureRequirementsNotMet(feature_bits). The arms not listed here are
all continue in the source. -/
def featureOk (bits : Nat) : Features → Bool
  | .VIRTIO_NET_F_GUEST_TSO4 =>
      bits &&& Features.VIRTIO_NET_F_GUEST_CSUM.toBits != 0
  | .VIRTIO_NET_F_GUEST_TSO6 =>
      bits &&& Features.VIRTIO_NET_F_GUEST_CSUM.toBits != 0
  | .VIRTIO_NET_F_GUEST_ECN =>
      bits &&& (Features.VIRTIO_NET_F_GUEST_TSO4.toBits
        ||| Features.VIRTIO_NET_F_GUEST_TSO6.toBits) != 0
  | .VIRTIO_NET_F_GUEST_UFO =>
      bits &&& Features.VIRTIO_NET_F_GUEST_CSUM.toBits != 0
  | .VIRTIO_NET_F_HOST_TSO4 =>
      bits &&& Features.VIRTIO_NET_F_CSUM.toBits != 0
  | .VIRTIO_NET_F_HOST_TSO6 =>
      bits &&& Features.VIRTIO_NET_F_CSUM.toBits != 0
  | .VIRTIO_NET_F_HOST_ECN =>
      bits &&& (Features.VIRTIO_NET_F_HOST_TSO4.toBits
        ||| Features.VIRTIO_NET_F_HOST_TSO6.toBits) != 0
  | .VIRTIO_NET_F_HOST_UFO =>
      bits &&& Features.VIRTIO_NET_F_CSUM.toBits != 0
  | .VIRTIO_NET_F_CTRL_RX =>
      bits &&& Features.VIRTIO_NET_F_CTRL_VQ.toBits != 0
  | .VIRTIO_NET_F_CTRL_VLAN =>
      bits &&& Features.VIRTIO_NET_F_CTRL_VQ.toBits != 0
  | .VIRTIO_NET_F_GUEST_ANNOUNCE =>
      bits &&& Features.VIRTIO_NET_F_CTRL_VQ.toBits != 0
  | .VIRTIO_NET_F_MQ =>
      bits &&& Features.VIRTIO_NET_F_CTRL_VQ.toBits != 0
  | .VIRTIO_NET_F_CTRL_MAC_ADDR =>
      bits &&& Features.VIRTIO_NET_F_CTRL_VQ.toBits != 0
  | .VIRTIO_NET_F_RSC_EXT =>
      bits &&& (Features.VIRTIO_NET_F_HOST_TSO4.toBits
        ||| Features.VIRTIO_NET_F_HOST_TSO6.toBits) != 0
  | _ => true

/-- The second loop of check_features: iterate the list, returning the
first failure as FeatureRequirementsNotMet(feature_bits). -/
def checkLoop (bits : Nat) : List Features → Except VirtioNetError Unit
  | [] => .ok ()
  | f :: rest =>
      if featureOk bits f then checkLoop bits rest
      else .error (.FeatureRequirementsNotMet bits)

/-- FeatureSet::check_features: first accumulate feature_bits with |=,
then run the match over every listed feature. -/
def checkFeatures (features : List Features) : Except VirtioNetError Unit :=
  checkLoop (featureBits features) features

/-- The dependency table of virtio spec 5.1.3.1, stated over the union
of the bits of the input list, as the claim reads it. -/
def depsHold (bits : Nat) : Prop :=
  (isFeature bits .VIRTIO_NET_F_GUEST_TSO4 = true →
    isFeature bits .VIRTIO_NET_F_GUEST_CSUM = true) ∧
  (isFeature bits .VIRTIO_NET_F_GUEST_TSO6 = true →
    isFeature bits .VIRTIO_NET_F_GUEST_CSUM = true) ∧
  (isFeature bits .VIRTIO_NET_F_GUEST_UFO = true →
    isFeature bits .VIRTIO_NET_F_GUEST_CSUM = true) ∧
  (isFeature bits .VIRTIO_NET_F_HOST_TSO4 = true →
    isFeature bits .VIRTIO_NET_F_CSUM = true) ∧
  (isFeature bits .VIRTIO_NET_F_HOST_TSO6 = true →
    isFeature bits .VIRTIO_NET_F_CSUM = true) ∧
  (isFeature bits .VIRTIO_NET_F_HOST_UFO = true →
    isFeature bits .VIRTIO_NET_F_CSUM = true) ∧
  (isFeature bits .VIRTIO_NET_F_GUEST_ECN = true →
    isFeature bits .VIRTIO_NET_F_GUEST_TSO4 = true ∨
    isFeature bits .VIRTIO_NET_F_GUEST_TSO6 = true) ∧
  (isFeature bits .VIRTIO_NET_F_HOST_ECN = true →
    isFeature bits .VIRTIO_NET_F_HOST_TSO4 = true ∨
    isFeature bits .VIRTIO_NET_F_HOST_TSO6 = true) ∧
  (isFeature bits .VIRTIO_NET_F_CTRL_RX = true →
    isFeature bits .VIRTIO_NET_F_CTRL_VQ = true) ∧
  (isFeature bits .VIRTIO_NET_F_CTRL_VLAN = true →
    isFeature bits .VIRTIO_NET_F_CTRL_VQ = true) ∧
  (isFeature bits .VIRTIO_NET_F_GUEST_ANNOUNCE = true →
    isFeature bits .VIRTIO_NET_F_CTRL_VQ = true) ∧
  (isFeature bits .VIRTIO_NET_F_MQ = true →
    isFeature bits .VIRTIO_NET_F_CTRL_VQ = true) ∧
  (isFeature bits .VIRTIO_NET_F_CTRL_MAC_ADDR = true →
    isFeature bits .VIRTIO_NET_F_CTRL_VQ = true) ∧
  (isFeature bits .VIRTIO_NET_F_RSC_EXT = true →
    isFeature bits .VIRTIO_NET_F_HOST_TSO4 = true ∨
    isFeature bits .VIRTIO_NET_F_HOST_TSO6 = true)

/-! Helper lemmas for relating bits of featureBits to list membership. -/

theorem lor_eq_zero_iff (x y : Nat) : x ||| y = 0 ↔ x = 0 ∧ y = 0 := by
  constructor
  · intro h
    refine ⟨Nat.eq_of_testBit_eq fun i => ?_, Nat.eq_of_testBit_eq fun i => ?_⟩ <;>
    · have hb := congrArg (fun n => n.testBit i) h
      simp only [Nat.testBit_or, Nat.zero_testBit, Bool.or_eq_false_iff] at hb
      simp [hb.1, hb.2]
  · rintro ⟨rfl, rfl⟩
    simp

theorem toBits_and_toBits (f g : Features) :
    f.toBits &&& g.toBits ≠ 0 ↔ f = g := by
  revert f g
  decide

theorem featureBits_cons (f : Features) (fs : List Features) :
    featureBits (f :: fs) = f.toBits ||| featureBits fs := by
  have h : ∀ (l : List Features) (a : Nat),
      l.foldl (fun acc g => acc ||| g.toBits) a
        = a ||| l.foldl (fun acc g => acc ||| g.toBits) 0 := by
    intro l
    induction l with
    | nil => intro a; simp
    | cons b l ih =>
        intro a
        simp only [List.foldl_cons]
        rw [ih (a ||| b.toBits), ih (0 ||| b.toBits)]
        simp [Nat.or_assoc]
  simp only [featureBits, List.foldl_cons]
  rw [h fs (0 ||| f.toBits)]
  simp

theorem isFeature_featureBits (fs : List Features) (f : Features) :
    isFeature (featureBits fs) f = true ↔ f ∈ fs := by
  induction fs with
  | nil => simp [isFeature, featureBits]
  | cons g rest ih =>
      rw [featureBits_cons]
      simp only [isFeature, bne_iff_ne, ne_eq] at ih ⊢
      rw [Nat.and_distrib_right, lor_eq_zero_iff]
      constructor
      · intro h
        rcases Decidable.not_and_iff_or_not.mp h with h1 | h1
        · exact (List.mem_cons).mpr (Or.inl ((toBits_and_toBits g f).mp h1).symm)
        · exact (List.mem_cons).mpr (Or.inr (ih.mp h1))
      · intro h
        rcases List.mem_cons.mp h with h1 | h1
        · exact fun hc => ((toBits_and_toBits g f).mpr h1.symm) hc.1
        · exact fun hc => (ih.mpr h1) hc.2

theorem and_or_ne_zero_iff (b m1 m2 : Nat) :
    b &&& (m1 ||| m2) ≠ 0 ↔ (b &&& m1 ≠ 0 ∨ b &&& m2 ≠ 0) := by
  rw [Nat.and_or_distrib_left]
  constructor
  · intro h
    exact Decidable.not_and_iff_or_not.mp (fun hc => h ((lor_eq_zero_iff _ _).mpr hc))
  · intro h hc
    rcases (lor_eq_zero_iff _ _).mp hc with ⟨h1, h2⟩
    rcases h with h3 | h3
    · exact h3 h1
    · exact h3 h2

theorem checkLoop_ok_iff (bits : Nat) (fs : List Features) :
    checkLoop bits fs = .ok () ↔ ∀ f ∈ fs, featureOk bits f = true := by
  induction fs with
  | nil => simp [checkLoop]
  | cons f rest ih =>
      simp only [checkLoop]
      by_cases h : featureOk bits f = true
      · simp [h, ih]
      · simp [h]

theorem checkLoop_error (bits : Nat) (fs : List Features)
    (e : VirtioNetError) (h : checkLoop bits fs = .error e) :
    e = .FeatureRequirementsNotMet bits := by
  induction fs with
  | nil => simp [checkLoop] at h
  | cons f rest ih =>
      simp only [checkLoop] at h
      by_cases hf : featureOk bits f = true
      · rw [if_pos hf] at h; exact ih h
      · rw [if_neg hf] at h
        cases h
        rfl

theorem or_dep_iff (bits : Nat) (f g : Features) :
    (bits &&& (f.toBits ||| g.toBits) != 0) = true ↔
      (isFeature bits f = true ∨ isFeature bits g = true) := by
  simp only [isFeature, bne_iff_ne, ne_eq]
  exact and_or_ne_zero_iff bits f.toBits g.toBits

theorem forall_featureOk_iff_depsHold (fs : List Features) :
    (∀ f ∈ fs, featureOk (featureBits fs) f = true) ↔
      depsHold (featureBits fs) := by
  constructor
  · intro h
    have hmem : ∀ f, isFeature (featureBits fs) f = true → f ∈ fs :=
      fun f => (isFeature_featureBits fs f).mp
    exact ⟨fun hb => h .VIRTIO_NET_F_GUEST_TSO4 (hmem _ hb),
      fun hb => h .VIRTIO_NET_F_GUEST_TSO6 (hmem _ hb),
      fun hb => h .VIRTIO_NET_F_GUEST_UFO (hmem _ hb),
      fun hb => h .VIRTIO_NET_F_HOST_TSO4 (hmem _ hb),
      fun hb => h .VIRTIO_NET_F_HOST_TSO6 (hmem _ hb),
      fun hb => h .VIRTIO_NET_F_HOST_UFO (hmem _ hb),
      fun hb => (or_dep_iff _ _ _).mp (h .VIRTIO_NET_F_GUEST_ECN (hmem _ hb)),
      fun hb => (or_dep_iff _ _ _).mp (h .VIRTIO_NET_F_HOST_ECN (hmem _ hb)),
      fun hb => h .VIRTIO_NET_F_CTRL_RX (hmem _ hb),
      fun hb => h .VIRTIO_NET_F_CTRL_VLAN (hmem _ hb),
      fun hb => h .VIRTIO_NET_F_GUEST_ANNOUNCE (hmem _ hb),
      fun hb => h .VIRTIO_NET_F_MQ (hmem _ hb),
      fun hb => h .VIRTIO_NET_F_CTRL_MAC_ADDR (hmem _ hb),
      fun hb => (or_dep_iff _ _ _).mp (h .VIRTIO_NET_F_RSC_EXT (hmem _ hb))⟩
  · intro hd f hm
    obtain ⟨d1, d2, d3, d4, d5, d6, d7, d8, d9, d10, d11, d12, d13, d14⟩ := hd
    have hbit : isFeature (featureBits fs) f = true :=
      (isFeature_featureBits fs f).mpr hm
    cases f <;> try rfl
    case VIRTIO_NET_F_GUEST_TSO4 => exact d1 hbit
    case VIRTIO_NET_F_GUEST_TSO6 => exact d2 hbit
    case VIRTIO_NET_F_GUEST_UFO => exact d3 hbit
    case VIRTIO_NET_F_HOST_TSO4 => exact d4 hbit
    case VIRTIO_NET_F_HOST_TSO6 => exact d5 hbit
    case VIRTIO_NET_F_HOST_UFO => exact d6 hbit
    case VIRTIO_NET_F_GUEST_ECN => exact (or_dep_iff _ _ _).mpr (d7 hbit)
    case VIRTIO_NET_F_HOST_ECN => exact (or_dep_iff _ _ _).mpr (d8 hbit)
    case VIRTIO_NET_F_CTRL_RX => exact d9 hbit
    case VIRTIO_NET_F_CTRL_VLAN => exact d10 hbit
    case VIRTIO_NET_F_GUEST_ANNOUNCE => exact d11 hbit
    case VIRTIO_NET_F_MQ => exact d12 hbit
    case VIRTIO_NET_F_CTRL_MAC_ADDR => exact d13 hbit
    case VIRTIO_NET_F_RSC_EXT => exact (or_dep_iff _ _ _).mpr (d14 hbit)

/-- C4: FeatureSet::check_features is a deterministic function of its
input list (it is a Lean function of the list); for every list it
returns Ok exactly when every dependency of the virtio 5.1.3.1 table
holds over the union of the bits of the list, and every failure carries
FeatureRequirementsNotMet with that full 64-bit union. -/
theorem check_features_spec (fs : List Features) :
    (checkFeatures fs = .ok () ↔ depsHold (featureBits fs)) ∧
    (∀ e, checkFeatures fs = .error e →
      e = .FeatureRequirementsNotMet (featureBits fs)) := by
  constructor
  · rw [checkFeatures, checkLoop_ok_iff]
    exact forall_featureOk_iff_depsHold fs
  · intro e he
    exact checkLoop_error _ _ _ he

instance (bits : Nat) : Decidable (depsHold bits) := by
  unfold depsHold
  infer_instance

/-- Witness for C4 at concrete inputs: the dependency table holds for
the two-element list with GUEST_TSO4 and GUEST_CSUM, so check passes. -/
theorem check_features_spec_witness :
    depsHold (featureBits [Features.VIRTIO_NET_F_GUEST_TSO4,
      Features.VIRTIO_NET_F_GUEST_CSUM]) ∧
    checkFeatures [Features.VIRTIO_NET_F_GUEST_TSO4,
      Features.VIRTIO_NET_F_GUEST_CSUM] = .ok () :=
  ⟨by decide, (check_features_spec _).1.mpr (by decide)⟩

/-- C3: after a successful init_dev the checksum capability record is
derived from the negotiated features exactly per the table: both
checksum features give None/None, NET_CSUM alone gives Rx/Rx,
NET_GUEST_CSUM alone gives Tx/Tx, and neither leaves the prior record. -/
theorem derive_checksums_spec (s : Nat) (prior : ChecksumCapabilities) :
    (isFeature s .VIRTIO_NET_F_CSUM = true →
      isFeature s .VIRTIO_NET_F_GUEST_CSUM = true →
      deriveChecksums s prior = ⟨Checksum.None, Checksum.None⟩) ∧
    (isFeature s .VIRTIO_NET_F_CSUM = true →
      isFeature s .VIRTIO_NET_F_GUEST_CSUM = false →
      deriveChecksums s prior = ⟨Checksum.Rx, Checksum.Rx⟩) ∧
    (isFeature s .VIRTIO_NET_F_CSUM = false →
      isFeature s .VIRTIO_NET_F_GUEST_CSUM = true →
      deriveChecksums s prior = ⟨Checksum.Tx, Checksum.Tx⟩) ∧
    (isFeature s .VIRTIO_NET_F_CSUM = false →
      isFeature s .VIRTIO_NET_F_GUEST_CSUM = false →
      deriveChecksums s prior = prior) := by
  refine ⟨fun h1 h2 => ?_, fun h1 h2 => ?_, fun h1 h2 => ?_, fun h1 h2 => ?_⟩ <;>
    simp [deriveChecksums, h1, h2]

/-- Witness for C3: with both checksum feature bits set (value 3) the
record becomes None/None. -/
theorem derive_checksums_spec_witness :
    isFeature 3 .VIRTIO_NET_F_CSUM = true ∧
    isFeature 3 .VIRTIO_NET_F_GUEST_CSUM = true ∧
    deriveChecksums 3 ChecksumCapabilities.default =
      ⟨Checksum.None, Checksum.None⟩ :=
  ⟨by decide, by decide,
    (derive_checksums_spec 3 ChecksumCapabilities.default).1
      (by decide) (by decide)⟩

/-- C2 counterexample: when the ISR reports a configuration change and
no queue interrupt, handle_interrupt does not return false with the ISR
acknowledged; the config-change branch executes todo! and panics, so
the call never returns and never acknowledges. -/
theorem handle_interrupt_cfg_counterexample :
    handleInterrupt false true ≠ some (false, true) ∧
    handleInterrupt false true = none := by
  exact ⟨by decide, rfl⟩

/-- C2 amended: handle_interrupt returns true iff the ISR reports a
queue interrupt, and acknowledges the ISR before returning, on every
call on which the ISR does not report a configuration change without a
queue interrupt; in that remaining case the driver logs and panics in
the todo! macro without acknowledging, instead of returning false. -/
theorem handle_interrupt_spec :
    (∀ isInt : Bool, handleInterrupt isInt false = some (isInt, true)) ∧
    handleInterrupt true true = some (true, true) ∧
    handleInterrupt false true = none := by
  refine ⟨fun isInt => ?_, by decide, by decide⟩
  cases isInt <;> rfl

/-- C8: every buffer RxQueues::add posts (ring-size many) has size
(1514 + 12) aligned up to the cache-line padding unit when MRG_RXBUF is
negotiated, and device MTU + 12 otherwise. -/
theorem rx_add_buffer_sizes_spec (n features mtu padUnit : Nat) :
    (rxAddBufferSizes n features mtu padUnit).length = n ∧
    (∀ b ∈ rxAddBufferSizes n features mtu padUnit,
      (isFeature features .VIRTIO_NET_F_MRG_RXBUF = true →
        b = alignUp (1514 + 12) padUnit) ∧
      (isFeature features .VIRTIO_NET_F_MRG_RXBUF = false →
        b = mtu + 12)) := by
  constructor
  · simp [rxAddBufferSizes]
  · intro b hb
    have hbe := List.eq_of_mem_replicate hb
    subst hbe
    constructor <;> intro h <;> simp [rxBuffSize, virtioNetHdrSize, h]

/-- Witness for C8: two buffers with MRG_RXBUF active (bit 15) and a
padding unit of 128 give length 2 and the aligned merged size. -/
theorem rx_add_buffer_sizes_spec_witness :
    (rxAddBufferSizes 2 (1 <<< 15) 1500 128).length = 2 ∧
    rxBuffSize (1 <<< 15) 1500 128 = alignUp (1514 + 12) 128 :=
  ⟨(rx_add_buffer_sizes_spec 2 (1 <<< 15) 1500 128).1,
    ((rx_add_buffer_sizes_spec 2 (1 <<< 15) 1500 128).2 _
      (by decide)).1 (by decide)⟩

/-! ### Feature negotiation (init_dev lines 757-869, negotiate_features) -/

/-- The minimal feature set built at the start of init_dev. -/
def minimalFeaturesList : List Features :=
  [.VIRTIO_F_VERSION_1, .VIRTIO_NET_F_MAC]

/-- FeatureSet::new(0).set_features(&minimal_features): the u64 with the
minimal features set. -/
def minimalFeatureSet : Nat := featureBits minimalFeaturesList

/-- The desired feature list of init_dev: the minimal list with the
seven pushed features, in push order. -/
def desiredFeaturesList : List Features :=
  minimalFeaturesList ++
    [.VIRTIO_NET_F_STATUS, .VIRTIO_F_RING_INDIRECT_DESC,
     .VIRTIO_NET_F_MTU, .VIRTIO_F_RING_PACKED,
     .VIRTIO_NET_F_GUEST_CSUM, .VIRTIO_NET_F_CSUM,
     .VIRTIO_NET_F_MRG_RXBUF]

/-- All features in enum order, used by Features::from_set. -/
def allFeatures : List Features :=
  [.VIRTIO_NET_F_CSUM, .VIRTIO_NET_F_GUEST_CSUM,
   .VIRTIO_NET_F_CTRL_GUEST_OFFLOADS, .VIRTIO_NET_F_MTU,
   .VIRTIO_NET_F_MAC, .VIRTIO_NET_F_GUEST_TSO4, .VIRTIO_NET_F_GUEST_TSO6,
   .VIRTIO_NET_F_GUEST_ECN, .VIRTIO_NET_F_GUEST_UFO,
   .VIRTIO_NET_F_HOST_TSO4, .VIRTIO_NET_F_HOST_TSO6,
   .VIRTIO_NET_F_HOST_ECN, .VIRTIO_NET_F_HOST_UFO,
   .VIRTIO_NET_F_MRG_RXBUF, .VIRTIO_NET_F_STATUS, .VIRTIO_NET_F_CTRL_VQ,
   .VIRTIO_NET_F_CTRL_RX, .VIRTIO_NET_F_CTRL_VLAN,
   .VIRTIO_NET_F_GUEST_ANNOUNCE, .VIRTIO_NET_F_MQ,
   .VIRTIO_NET_F_CTRL_MAC_ADDR, .VIRTIO_F_RING_INDIRECT_DESC,
   .VIRTIO_F_RING_EVENT_IDX, .VIRTIO_F_VERSION_1,
   .VIRTIO_F_ACCESS_PLATFORM, .VIRTIO_F_RING_PACKED, .VIRTIO_F_IN_ORDER,
   .VIRTIO_F_ORDER_PLATFORM, .VIRTIO_F_SR_IOV,
   .VIRTIO_F_NOTIFICATION_DATA, .VIRTIO_NET_F_GUEST_HDRLEN,
   .VIRTIO_NET_F_RSC_EXT, .VIRTIO_NET_F_STANDBY]

/-- Features::from_set: test each recognised bit in enum order and
collect the corresponding features; None when no recognised bit is set. -/
def fromSet (featureSet : Nat) : Option (List Features) :=
  let featuresVec := allFeatures.filter (fun f => featureSet &&& f.toBits != 0)
  if featuresVec.isEmpty then none else some featuresVec

/-- VirtioNetDriver::negotiate_features: fold the wanted list into a
u64, read the device features, run the conformance check, then accept
iff the device supports every wanted feature. On success the value
written to the driver-features field (the folded u64) is returned. -/
def negotiateFeatures (deviceFeatures : Nat) (wantedFeatures : List Features) :
    Except VirtioNetError Nat :=
  let driverFeatures := featureBits wantedFeatures
  match checkFeatures wantedFeatures with
  | .error e => .error e
  | .ok _ =>
      if deviceFeatures &&& driverFeatures == driverFeatures then
        .ok driverFeatures
      else
        .error (.IncompatibleFeatureSets driverFeatures deviceFeatures)

/-- The negotiation portion of init_dev (lines 767-853): first
negotiation with the desired list, then the fallback on
IncompatibleFeatureSets. The ok value is the u64 written to the
driver-features field together with the final feature list. -/
def initNegotiate (deviceFeatures devId : Nat) :
    Except VirtioNetError (Nat × List Features) :=
  match negotiateFeatures deviceFeatures desiredFeaturesList with
  | .ok written => .ok (written, desiredFeaturesList)
  | .error (.FeatureRequirementsNotMet s) =>
      .error (.FeatureRequirementsNotMet s)
  | .error (.IncompatibleFeatureSets driverFeatures deviceFeatures2) =>
      if minimalFeatureSet &&& deviceFeatures2 != minimalFeatureSet then
        .error (.FailFeatureNeg devId)
      else
        match fromSet (deviceFeatures2 &&& driverFeatures) with
        | none => .error (.FailFeatureNeg devId)
        | some features2 =>
            match negotiateFeatures deviceFeatures features2 with
            | .ok written => .ok (written, features2)
            | .error e2 => .error e2
  | .error e => .error e

/-! Supporting lemmas for the fallback path. -/

theorem and_toBits_cases (b : Nat) (f : Features) :
    b &&& f.toBits = 0 ∨ b &&& f.toBits = f.toBits := by
  have h2 : f.toBits = 2 ^ f.bitIndex := Nat.one_shiftLeft f.bitIndex
  rw [h2, Nat.and_two_pow]
  cases hb : b.testBit f.bitIndex
  · left; simp
  · right; simp

theorem toBits_ne_zero : ∀ f : Features, f.toBits ≠ 0 := by decide

theorem featureBits_filter (l : List Features) (b : Nat) :
    featureBits (l.filter (fun f => b &&& f.toBits != 0)) =
      b &&& featureBits l := by
  induction l with
  | nil => simp [featureBits]
  | cons f l ih =>
      rw [featureBits_cons, Nat.and_or_distrib_left]
      rcases and_toBits_cases b f with h0 | h1
      · have hp : (b &&& f.toBits != 0) = false := by simp [h0]
        simp only [List.filter_cons, hp, Bool.false_eq_true, if_false, h0]
        simpa using ih
      · have hp : (b &&& f.toBits != 0) = true := by
          rw [h1]
          simpa using toBits_ne_zero f
        simp only [List.filter_cons, hp, if_true]
        rw [featureBits_cons, ih, h1]

/-- C9: when the first negotiation fails because the device lacks some
desired feature, the fallback requires the device features to contain
the minimal set {VERSION_1, NET_MAC}: without it init_dev fails with
FailFeatureNeg(dev_id); with it the list is rebuilt from the
intersection of device and desired features, the conformance check is
re-run and passes, and the reduced set is written to the driver-features
field (the ok value of the negotiation). -/
theorem init_negotiate_fallback (deviceFeatures devId : Nat)
    (h : deviceFeatures &&& featureBits desiredFeaturesList ≠
      featureBits desiredFeaturesList) :
    (minimalFeatureSet &&& deviceFeatures ≠ minimalFeatureSet →
      initNegotiate deviceFeatures devId =
        .error (.FailFeatureNeg devId)) ∧
    (minimalFeatureSet &&& deviceFeatures = minimalFeatureSet →
      ∃ reduced,
        fromSet (deviceFeatures &&& featureBits desiredFeaturesList) =
          some reduced ∧
        checkFeatures reduced = .ok () ∧
        initNegotiate deviceFeatures devId =
          .ok (deviceFeatures &&& featureBits desiredFeaturesList,
            reduced)) := by
  have hcheck : checkFeatures desiredFeaturesList = .ok () := by rfl
  have hbeq : (deviceFeatures &&& featureBits desiredFeaturesList ==
      featureBits desiredFeaturesList) = false := by
    simpa using h
  have hneg : negotiateFeatures deviceFeatures desiredFeaturesList =
      .error (.IncompatibleFeatureSets (featureBits desiredFeaturesList)
        deviceFeatures) := by
    unfold negotiateFeatures
    rw [hcheck]
    simp [hbeq]
  constructor
  · intro hmin
    have hbne : (minimalFeatureSet &&& deviceFeatures !=
        minimalFeatureSet) = true := by
      simpa using hmin
    unfold initNegotiate
    rw [hneg]
    simp [hbne]
  · intro hmin
    have hminb : minimalFeatureSet &&&
        (deviceFeatures &&& featureBits desiredFeaturesList) =
        minimalFeatureSet := by
      rw [← Nat.and_assoc, hmin]
      decide
    have hb0 : deviceFeatures &&& featureBits desiredFeaturesList ≠ 0 := by
      intro h0
      rw [h0, Nat.and_zero] at hminb
      exact absurd hminb.symm (by decide)
    have hfl : featureBits (allFeatures.filter
        (fun f => (deviceFeatures &&& featureBits desiredFeaturesList) &&&
          f.toBits != 0)) =
        deviceFeatures &&& featureBits desiredFeaturesList := by
      rw [featureBits_filter, Nat.and_assoc]
      congr 1
    have hne : (allFeatures.filter
        (fun f => (deviceFeatures &&& featureBits desiredFeaturesList) &&&
          f.toBits != 0)).isEmpty = false := by
      cases hcase : (allFeatures.filter
          (fun f => (deviceFeatures &&& featureBits desiredFeaturesList) &&&
            f.toBits != 0)).isEmpty
      · rfl
      · exfalso
        have hnil := List.isEmpty_iff.mp hcase
        rw [hnil] at hfl
        exact hb0 (by simpa [featureBits] using hfl.symm)
    have hfs : fromSet (deviceFeatures &&& featureBits desiredFeaturesList) =
        some (allFeatures.filter
          (fun f => (deviceFeatures &&& featureBits desiredFeaturesList) &&&
            f.toBits != 0)) := by
      unfold fromSet
      simp [hne]
    have hzero : ∀ g : Features,
        featureBits desiredFeaturesList &&& g.toBits = 0 →
        (deviceFeatures &&& featureBits desiredFeaturesList) &&&
          g.toBits = 0 := by
      intro g hg
      rw [Nat.and_assoc, hg, Nat.and_zero]
    have hsub : ∀ f ∈ allFeatures.filter
        (fun f => (deviceFeatures &&& featureBits desiredFeaturesList) &&&
          f.toBits != 0),
        featureOk (deviceFeatures &&& featureBits desiredFeaturesList)
          f = true := by
      intro f hf
      have hne2 : (deviceFeatures &&& featureBits desiredFeaturesList) &&&
          f.toBits ≠ 0 := by
        simpa using (List.mem_filter.mp hf).2
      cases f <;> first
        | rfl
        | exact absurd (hzero _ (by decide)) hne2
    have hcheck2 : checkFeatures (allFeatures.filter
        (fun f => (deviceFeatures &&& featureBits desiredFeaturesList) &&&
          f.toBits != 0)) = .ok () := by
      show checkLoop (featureBits (allFeatures.filter
        (fun f => (deviceFeatures &&& featureBits desiredFeaturesList) &&&
          f.toBits != 0))) (allFeatures.filter
        (fun f => (deviceFeatures &&& featureBits desiredFeaturesList) &&&
          f.toBits != 0)) = .ok ()
      rw [hfl]
      exact (checkLoop_ok_iff _ _).mpr hsub
    have hself : deviceFeatures &&&
        (deviceFeatures &&& featureBits desiredFeaturesList) =
        deviceFeatures &&& featureBits desiredFeaturesList := by
      rw [← Nat.and_assoc, Nat.and_self]
    have hneg2 : negotiateFeatures deviceFeatures (allFeatures.filter
        (fun f => (deviceFeatures &&& featureBits desiredFeaturesList) &&&
          f.toBits != 0)) =
        .ok (deviceFeatures &&& featureBits desiredFeaturesList) := by
      unfold negotiateFeatures
      rw [hcheck2]
      simp only [hfl, hself, beq_self_eq_true, if_true]
    refine ⟨allFeatures.filter
      (fun f => (deviceFeatures &&& featureBits desiredFeaturesList) &&&
        f.toBits != 0), hfs, hcheck2, ?_⟩
    have hbne2 : (minimalFeatureSet &&& deviceFeatures !=
        minimalFeatureSet) = false := by
      simp [hmin]
    unfold initNegotiate
    rw [hneg]
    simp only [hbne2, Bool.false_eq_true, if_false, hfs, hneg2]

/-- Witness for C9: a device offering nothing fails the fallback with
FailFeatureNeg(5); a device offering exactly the minimal set falls back
to the reduced set, which is written. -/
theorem init_negotiate_fallback_witness :
    initNegotiate 0 5 = .error (.FailFeatureNeg 5) ∧
    ∃ reduced,
      fromSet (minimalFeatureSet &&& featureBits desiredFeaturesList) =
        some reduced ∧
      checkFeatures reduced = .ok () ∧
      initNegotiate minimalFeatureSet 7 =
        .ok (minimalFeatureSet &&& featureBits desiredFeaturesList,
          reduced) :=
  ⟨(init_negotiate_fallback 0 5 (by decide)).1 (by decide),
    (init_negotiate_fallback minimalFeatureSet 7 (by decide)).2 (by decide)⟩

/-! ### send_packet header construction (lines 490-554)

The virtio-net header written at offset 0 of the TX buffer. Fields are
Nats; flags and gso_type carry the u8 discriminants of NetHdrFlag and
NetHdrGSO (NONE = 0, NEEDS_CSUM = 1). Frames are byte lists. The
smoltcp accessors used by the source are new_unchecked views that index
into the frame assuming sufficient length; out-of-range reads are
modelled with getD, and the theorems only quantify over frames long
enough for every performed read. -/

structure VirtioNetHdr where
  flags : Nat
  gso_type : Nat
  hdr_len : Nat
  gso_size : Nat
  csum_start : Nat
  csum_offset : Nat
  num_buffers : Nat
deriving DecidableEq, Repr

/-- VirtioNetHdr::default(): everything zero (flags NONE, gso NONE). -/
def VirtioNetHdr.default : VirtioNetHdr := ⟨0, 0, 0, 0, 0, 0, 0⟩

/-- EthernetFrame::ethertype: big-endian u16 at bytes 12..14. -/
def etherTypeOf (frame : List Nat) : Nat :=
  frame.getD 12 0 * 256 + frame.getD 13 0

/-- smoltcp EthernetProtocol::Ipv4 wire value. -/
def ethertypeIpv4 : Nat := 0x0800

/-- smoltcp EthernetProtocol::Ipv6 wire value. -/
def ethertypeIpv6 : Nat := 0x86DD

/-- ETHERNET_HEADER_LEN of smoltcp. -/
def ethernetHeaderLen : Nat := 14

/-- Ipv4Packet::header_len over the payload that starts after the
Ethernet header: (version-ihl byte & 0x0f) * 4. -/
def ipv4HeaderLen (payload : List Nat) : Nat :=
  (payload.getD 0 0 &&& 0xf) * 4

/-- Ipv4Packet::next_header (the protocol field, payload byte 9). -/
def ipv4NextHeader (payload : List Nat) : Nat := payload.getD 9 0

/-- Ipv6Packet::header_len: the fixed 40-byte IPv6 header. -/
def ipv6HeaderLen : Nat := 40

/-- Ipv6Packet::next_header (payload byte 6). -/
def ipv6NextHeader (payload : List Nat) : Nat := payload.getD 6 0

/-- IpProtocol::Tcp wire value. -/
def protocolTcp : Nat := 6

/-- IpProtocol::Udp wire value. -/
def protocolUdp : Nat := 17

/-- The header send_packet leaves in the TX buffer after the caller has
written the frame: the header is zeroed, and if the stack did not
compute a TCP-tx or UDP-tx checksum itself, NEEDS_CSUM is set and
csum_start and csum_offset are filled from the parsed frame. -/
def sendPacketHeader (checksums : ChecksumCapabilities)
    (frame : List Nat) : VirtioNetHdr :=
  let header := VirtioNetHdr.default
  if !checksums.tcp.tx || !checksums.udp.tx then
    let payload := frame.drop ethernetHeaderLen
    let packetHeaderLen : Nat :=
      if etherTypeOf frame = ethertypeIpv4 then ipv4HeaderLen payload
      else if etherTypeOf frame = ethertypeIpv6 then ipv6HeaderLen
      else 0
    let protocol : Option Nat :=
      if etherTypeOf frame = ethertypeIpv4 then
        some (ipv4NextHeader payload)
      else if etherTypeOf frame = ethertypeIpv6 then
        some (ipv6NextHeader payload)
      else none
    { header with
        flags := 1,
        csum_start := ethernetHeaderLen + packetHeaderLen,
        csum_offset :=
          if protocol = some protocolTcp then 16
          else if protocol = some protocolUdp then 6
          else 0 }
  else
    header

/-! Spec-side readings of the frame, following the claim text: the IP
header length and the L4 protocol obtained by parsing the ethertype and
the IPv4/IPv6 next-header. -/

def ipHeaderLenOf (frame : List Nat) : Nat :=
  if etherTypeOf frame = ethertypeIpv4 then
    ipv4HeaderLen (frame.drop ethernetHeaderLen)
  else if etherTypeOf frame = ethertypeIpv6 then
    ipv6HeaderLen
  else 0

def nextHeaderOf (frame : List Nat) : Option Nat :=
  if etherTypeOf frame = ethertypeIpv4 then
    some (ipv4NextHeader (frame.drop ethernetHeaderLen))
  else if etherTypeOf frame = ethertypeIpv6 then
    some (ipv6NextHeader (frame.drop ethernetHeaderLen))
  else none

def csumOffsetOf (frame : List Nat) : Nat :=
  if nextHeaderOf frame = some protocolTcp then 16
  else if nextHeaderOf frame = some protocolUdp then 6
  else 0

/-- A minimal TCP/IPv4 Ethernet frame: ethertype 0x0800, IHL 5 (20-byte
IP header), protocol TCP. Only the bytes the parser reads are nonzero. -/
def sampleTcpIpv4Frame : List Nat :=
  [0, 0, 0, 0, 0, 0, 0, 0, 0, 0, 0, 0, 0x08, 0x00,
   0x45, 0, 0, 0, 0, 0, 0, 0, 0, 6,
   0, 0, 0, 0, 0, 0, 0, 0, 0, 0]

/-- The feature set negotiated in scenario 3 of the spec: only
NET_GUEST_CSUM beyond the minimal set. -/
def guestCsumOnlySet : Nat :=
  featureBits (minimalFeaturesList ++ [.VIRTIO_NET_F_GUEST_CSUM])

/-- The feature set with both NET_CSUM and NET_GUEST_CSUM beyond the
minimal set (scenario 2 of the spec). -/
def bothCsumSet : Nat :=
  featureBits (minimalFeaturesList ++
    [.VIRTIO_NET_F_GUEST_CSUM, .VIRTIO_NET_F_CSUM])

/-- C1 counterexample: the claim fails on the code in both of its
concrete scenarios. After negotiating only NET_GUEST_CSUM plus the
minimal set (checksum caps Tx/Tx), send of a TCP/IPv4 frame leaves
flags = 0, not NEEDS_CSUM as claimed; after negotiating both NET_CSUM
and NET_GUEST_CSUM (caps None/None), send does set NEEDS_CSUM, contrary
to the claim. -/
theorem send_packet_csum_counterexample :
    (sendPacketHeader
      (deriveChecksums guestCsumOnlySet ChecksumCapabilities.default)
      sampleTcpIpv4Frame).flags = 0 ∧
    (sendPacketHeader
      (deriveChecksums bothCsumSet ChecksumCapabilities.default)
      sampleTcpIpv4Frame).flags = 1 := by
  exact ⟨by decide, by decide⟩

/-- C1 amended: when TCP-tx or UDP-tx checksumming is left to the host
device (the stack-side tx capability is false, which is the case iff
NET_CSUM was negotiated), send_packet marks NEEDS_CSUM and sets
csum_start = 14 + ip_header_len and csum_offset = 16 for TCP, 6 for
UDP, 0 otherwise, parsing the written frame; when the stack computes
both tx checksums itself the header stays zero. In particular after
negotiating both NET_CSUM and NET_GUEST_CSUM a send of a TCP/IPv4 frame
sets flags = NEEDS_CSUM, csum_start = 34, csum_offset = 16, while after
negotiating only NET_GUEST_CSUM plus the minimal set a send leaves the
zero header (no NEEDS_CSUM). -/
theorem send_packet_csum_spec (cs : ChecksumCapabilities)
    (frame : List Nat) (prior : ChecksumCapabilities) :
    (cs.tcp.tx = false ∨ cs.udp.tx = false →
      sendPacketHeader cs frame =
        { VirtioNetHdr.default with
            flags := 1,
            csum_start := 14 + ipHeaderLenOf frame,
            csum_offset := csumOffsetOf frame }) ∧
    (cs.tcp.tx = true → cs.udp.tx = true →
      sendPacketHeader cs frame = VirtioNetHdr.default) ∧
    (sendPacketHeader
      (deriveChecksums bothCsumSet prior) sampleTcpIpv4Frame =
      { VirtioNetHdr.default with
          flags := 1, csum_start := 34, csum_offset := 16 }) ∧
    (sendPacketHeader
      (deriveChecksums guestCsumOnlySet prior) sampleTcpIpv4Frame =
      VirtioNetHdr.default) := by
  refine ⟨?_, ?_, ?_, ?_⟩
  · intro h
    have hc : (!cs.tcp.tx || !cs.udp.tx) = true := by
      rcases h with h | h <;> simp [h]
    unfold sendPacketHeader
    rw [if_pos hc]
    simp only [ipHeaderLenOf, csumOffsetOf, nextHeaderOf, ethernetHeaderLen]
  · intro h1 h2
    simp [sendPacketHeader, h1, h2]
  · have hb : (isFeature bothCsumSet .VIRTIO_NET_F_CSUM &&
        isFeature bothCsumSet .VIRTIO_NET_F_GUEST_CSUM) = true := by decide
    have hcs : deriveChecksums bothCsumSet prior =
        ⟨Checksum.None, Checksum.None⟩ := by
      simp [deriveChecksums, hb]
    rw [hcs]
    decide
  · have h1 : isFeature guestCsumOnlySet .VIRTIO_NET_F_CSUM = false := by
      decide
    have h2 : isFeature guestCsumOnlySet .VIRTIO_NET_F_GUEST_CSUM = true := by
      decide
    have hcs : deriveChecksums guestCsumOnlySet prior =
        ⟨Checksum.Tx, Checksum.Tx⟩ := by
      simp [deriveChecksums, h1, h2]
    rw [hcs]
    decide

/-- Witness for C1 amended at concrete inputs: Rx/Rx capabilities (the
NET_CSUM-only outcome) mark NEEDS_CSUM on the sample TCP/IPv4 frame;
Both/Both capabilities leave the zero header. -/
theorem send_packet_csum_spec_witness :
    sendPacketHeader ⟨Checksum.Rx, Checksum.Rx⟩ sampleTcpIpv4Frame =
      { VirtioNetHdr.default with
          flags := 1,
          csum_start := 14 + ipHeaderLenOf sampleTcpIpv4Frame,
          csum_offset := csumOffsetOf sampleTcpIpv4Frame } ∧
    sendPacketHeader ⟨Checksum.Both, Checksum.Both⟩ sampleTcpIpv4Frame =
      VirtioNetHdr.default :=
  ⟨(send_packet_csum_spec ⟨Checksum.Rx, Checksum.Rx⟩ sampleTcpIpv4Frame
      ChecksumCapabilities.default).1 (Or.inl (by decide)),
    (send_packet_csum_spec ⟨Checksum.Both, Checksum.Both⟩
      sampleTcpIpv4Frame ChecksumCapabilities.default).2.1
      (by decide) (by decide)⟩

/-! ### receive_packet (lines 556-639)

A completed RX BufferToken is modelled by its receive slices (as_slices
returns the recv side). reset() restores the full buffer, so a token
re-provided after reset is recorded as the token itself; the
wrong-layout branch additionally writes a zero header into the buffer,
which does not change which token returns to the ring. -/

structure BufferToken where
  recvSlices : List (List Nat)
deriving DecidableEq, Repr

/-- header.num_buffers after the transmute of the first 12 header
bytes: the little-endian u16 at offsets 10 and 11. -/
def numBuffersOf (packet : List Nat) : Nat :=
  packet.getD 10 0 + 256 * packet.getD 11 0

/-- The slice Vec::pop takes from a token: the last receive slice. -/
def BufferToken.lastSlice (t : BufferToken) : List Nat :=
  t.recvSlices.getLast?.getD []

/-- The fragment-gathering loop (for _ in 1..num_buffers): each
iteration pulls the next completion (none models the panic of
get_next().unwrap() on an exhausted channel), pops its last slice (none
models the panic of recv_data.pop().unwrap() on a token without
slices), appends it without header stripping, and re-provides the
token. Arguments: remaining iterations, channel, accumulated bytes,
tokens re-provided so far. -/
def gatherFragments :
    Nat → List BufferToken → List Nat → List BufferToken →
      Option (List Nat × List BufferToken × List BufferToken)
  | 0, chan, acc, prov => some (acc, chan, prov)
  | _ + 1, [], _, _ => none
  | k + 1, t :: rest, acc, prov =>
      match t.recvSlices.getLast? with
      | none => none
      | some s => gatherFragments k rest (acc ++ s) (prov ++ [t])

/-- VirtioNetDriver::receive_packet over the stream of completed RX
tokens (the completion channel after polling). none models a panic;
otherwise some (returnValue, remainingChannel, reProvidedTokens), where
returnValue is the packet handed to the stack (none for the dropped or
absent-frame returns) and reProvidedTokens lists, in order, the
consumed tokens reset and provided back to the ring before returning. -/
def receivePacket (chan : List BufferToken) :
    Option (Option (List Nat) × List BufferToken × List BufferToken) :=
  match chan with
  | [] => some (none, [], [])
  | t :: rest =>
      match t.recvSlices with
      | [packet] =>
          if packet.length < virtioNetHdrSize then
            some (none, rest, [t])
          else
            match gatherFragments (numBuffersOf packet - 1) rest
                (packet.drop virtioNetHdrSize) [t] with
            | none => none
            | some (data, chanRest, prov) =>
                some (some data, chanRest, prov)
      | _ => some (none, rest, [t])

theorem gatherFragments_run (frags : List BufferToken) :
    ∀ (rest : List BufferToken) (acc : List Nat) (prov : List BufferToken),
      (∀ t ∈ frags, t.recvSlices ≠ []) →
      gatherFragments frags.length (frags ++ rest) acc prov =
        some (acc ++ (frags.map BufferToken.lastSlice).flatten, rest,
          prov ++ frags) := by
  induction frags with
  | nil =>
      intro rest acc prov _
      simp [gatherFragments]
  | cons t frags ih =>
      intro rest acc prov hall
      have hne : t.recvSlices ≠ [] := hall t (by simp)
      have hg : ∃ s, t.recvSlices.getLast? = some s := by
        cases hl : t.recvSlices.getLast? with
        | none => exact absurd (List.getLast?_eq_none_iff.mp hl) hne
        | some s => exact ⟨s, rfl⟩
      obtain ⟨s, hs⟩ := hg
      simp only [List.length_cons, List.cons_append, List.append_eq,
        gatherFragments, hs]
      rw [ih rest (acc ++ s) (prov ++ [t])
        (fun u hu => hall u (by simp [hu]))]
      simp [BufferToken.lastSlice, hs, List.append_assoc]

theorem gatherFragments_consumed (k : Nat) :
    ∀ (chan : List BufferToken) (acc : List Nat)
      (prov : List BufferToken) (d : List Nat)
      (rest prov2 : List BufferToken),
      gatherFragments k chan acc prov = some (d, rest, prov2) →
      ∃ used, chan = used ++ rest ∧ prov2 = prov ++ used := by
  induction k with
  | zero =>
      intro chan acc prov d rest prov2 h
      simp only [gatherFragments, Option.some_inj, Prod.mk.injEq] at h
      exact ⟨[], by simp [h.2.1], by simp [← h.2.2]⟩
  | succ k ih =>
      intro chan acc prov d rest prov2 h
      cases chan with
      | nil => simp [gatherFragments] at h
      | cons t rest2 =>
          simp only [gatherFragments] at h
          cases hg : t.recvSlices.getLast? with
          | none => rw [hg] at h; simp at h
          | some s =>
              rw [hg] at h
              obtain ⟨used, hu1, hu2⟩ := ih _ _ _ _ _ _ h
              exact ⟨t :: used, by simp [hu1], by simp [hu2]⟩

/-- C7: on every returning path of receive_packet, the consumed
completed RX tokens are exactly the tokens re-provided to the ring
before the return; in particular a first fragment shorter than the
12-byte header is dropped, its token re-provided, and nothing is
returned. -/
theorem receive_packet_reprovide :
    (∀ chan r rest prov,
      receivePacket chan = some (r, rest, prov) → chan = prov ++ rest) ∧
    (∀ (t : BufferToken) (s : List Nat) rest, t.recvSlices = [s] →
      s.length < virtioNetHdrSize →
      receivePacket (t :: rest) = some (none, rest, [t])) := by
  constructor
  · intro chan r rest prov h
    cases chan with
    | nil =>
        simp only [receivePacket, Option.some_inj, Prod.mk.injEq] at h
        simp [← h.2.1, ← h.2.2]
    | cons t rest2 =>
        cases hts : t.recvSlices with
        | nil =>
            simp only [receivePacket, hts, Option.some_inj,
              Prod.mk.injEq] at h
            simp [← h.2.1, ← h.2.2]
        | cons s0 stail =>
            cases stail with
            | cons s1 stail2 =>
                simp only [receivePacket, hts, Option.some_inj,
                  Prod.mk.injEq] at h
                simp [← h.2.1, ← h.2.2]
            | nil =>
                simp only [receivePacket, hts] at h
                by_cases hlen : s0.length < virtioNetHdrSize
                · rw [if_pos hlen] at h
                  simp only [Option.some_inj, Prod.mk.injEq] at h
                  simp [← h.2.1, ← h.2.2]
                · rw [if_neg hlen] at h
                  cases hgf : gatherFragments (numBuffersOf s0 - 1) rest2
                      (s0.drop virtioNetHdrSize) [t] with
                  | none => rw [hgf] at h; simp at h
                  | some res =>
                      obtain ⟨d, cr, pr⟩ := res
                      rw [hgf] at h
                      simp only [Option.some_inj, Prod.mk.injEq] at h
                      obtain ⟨used, hu1, hu2⟩ :=
                        gatherFragments_consumed _ _ _ _ _ _ _ hgf
                      rw [← h.2.1, ← h.2.2, hu2, hu1]
                      simp
  · intro t s rest h1 h2
    simp [receivePacket, h1, h2]

/-- Witness for C7: a single completed token whose only slice has 3
bytes is dropped and re-provided, and the consumed-equals-re-provided
accounting holds for that call. -/
theorem receive_packet_reprovide_witness :
    receivePacket [BufferToken.mk [[1, 2, 3]]] =
      some (none, [], [BufferToken.mk [[1, 2, 3]]]) ∧
    ([BufferToken.mk [[1, 2, 3]]] : List BufferToken) =
      [BufferToken.mk [[1, 2, 3]]] ++ [] :=
  ⟨receive_packet_reprovide.2 _ [1, 2, 3] [] rfl (by decide),
    receive_packet_reprovide.1 _ none [] _
      (receive_packet_reprovide.2 _ [1, 2, 3] [] rfl (by decide))⟩

/-- C5: when the first completed RX token holds exactly one slice of
length at least 12 whose decoded header carries num_buffers = n with
n > 1, the returned packet is the first slice with the 12-byte header
stripped, concatenated with the full single slices of exactly n - 1
further completions, and all n consumed tokens are re-provided. -/
theorem receive_packet_merged (t0 : BufferToken) (s : List Nat)
    (frags rest : List BufferToken)
    (h1 : t0.recvSlices = [s]) (h2 : virtioNetHdrSize ≤ s.length)
    (h3 : 1 < numBuffersOf s)
    (h4 : frags.length = numBuffersOf s - 1)
    (h5 : ∀ t ∈ frags, ∃ u, t.recvSlices = [u]) :
    receivePacket (t0 :: (frags ++ rest)) =
      some (some (s.drop virtioNetHdrSize ++
        (frags.map BufferToken.lastSlice).flatten), rest, t0 :: frags) := by
  have hnot : ¬ s.length < virtioNetHdrSize := Nat.not_lt.mpr h2
  simp only [receivePacket, h1]
  rw [if_neg hnot, ← h4,
    gatherFragments_run frags rest (s.drop virtioNetHdrSize) [t0]
      (fun u hu => by
        obtain ⟨w, hw⟩ := h5 u hu
        simp [hw])]
  simp

/-- Witness for C5: a 14-byte first slice with num_buffers = 3 gathers
two further single-slice completions; the result concatenates the
stripped body with both fragment slices and re-provides all three. -/
theorem receive_packet_merged_witness :
    receivePacket (BufferToken.mk [[0, 0, 0, 0, 0, 0, 0, 0, 0, 0, 3, 0, 1, 2]] ::
        ([BufferToken.mk [[5, 6]], BufferToken.mk [[7]]] ++ [])) =
      some (some (List.drop virtioNetHdrSize
          [0, 0, 0, 0, 0, 0, 0, 0, 0, 0, 3, 0, 1, 2] ++
        (([BufferToken.mk [[5, 6]], BufferToken.mk [[7]]]).map
          BufferToken.lastSlice).flatten), [],
        BufferToken.mk [[0, 0, 0, 0, 0, 0, 0, 0, 0, 0, 3, 0, 1, 2]] ::
          [BufferToken.mk [[5, 6]], BufferToken.mk [[7]]]) :=
  receive_packet_merged _ _ _ _ rfl (by decide) (by decide) (by decide)
    (by
      intro t ht
      simp only [List.mem_cons, List.not_mem_nil, or_false] at ht
      rcases ht with rfl | rfl
      · exact ⟨[5, 6], rfl⟩
      · exact ⟨[7], rfl⟩)

/-- C10: a well-formed first fragment whose header carries
num_buffers = 0 is handled exactly like num_buffers = 1: the gathering
loop runs zero times and the call returns the first slice with the
12-byte header stripped, re-providing only that token. -/
theorem receive_packet_num_buffers_zero (t0 : BufferToken) (s : List Nat)
    (rest : List BufferToken) (h1 : t0.recvSlices = [s])
    (h2 : virtioNetHdrSize ≤ s.length)
    (h3 : numBuffersOf s = 0 ∨ numBuffersOf s = 1) :
    receivePacket (t0 :: rest) =
      some (some (s.drop virtioNetHdrSize), rest, [t0]) := by
  have hnot : ¬ s.length < virtioNetHdrSize := Nat.not_lt.mpr h2
  have hz : numBuffersOf s - 1 = 0 := by
    rcases h3 with h | h <;> simp [h]
  simp only [receivePacket, h1]
  rw [if_neg hnot, hz]
  simp [gatherFragments]

/-- Witness for C10: a 13-byte slice with num_buffers = 0 yields just
its stripped body, with the single token re-provided. -/
theorem receive_packet_num_buffers_zero_witness :
    receivePacket [BufferToken.mk [[0, 0, 0, 0, 0, 0, 0, 0, 0, 0, 0, 0, 9]]] =
      some (some (List.drop virtioNetHdrSize
        [0, 0, 0, 0, 0, 0, 0, 0, 0, 0, 0, 0, 9]), [],
        [BufferToken.mk [[0, 0, 0, 0, 0, 0, 0, 0, 0, 0, 0, 0, 9]]]) :=
  receive_packet_num_buffers_zero _ _ _ rfl (by decide) (Or.inl (by decide))

/-! ### TxQueues::get_tkn (lines 391-438)

A TX BufferToken is modelled by its full send capacity (from
prep_buffer) and an optional restriction set by restr_size; len()
reports the restricted size when present, and reset() clears the
restriction (restoring the buffer). The ready_queue is a Vec popped
from the back, so the drain walks it in reverse. The completion
channel is drained front to back; when it is empty, poll() first
surfaces the completions pollExtra from the ring. The allocOk flag
tells whether the final prep_buffer on vqs[0] succeeds. -/

structure TxToken where
  cap : Nat
  restr : Option Nat
deriving DecidableEq, Repr

/-- BufferToken::len().0: the current send length. -/
def TxToken.sendLen (t : TxToken) : Nat := t.restr.getD t.cap

/-- BufferToken::reset(): restore the full write access. -/
def TxToken.reset (t : TxToken) : TxToken := ⟨t.cap, none⟩

/-- BufferToken::restr_size(Some(len), None). -/
def TxToken.restrSize (t : TxToken) (len : Nat) : TxToken :=
  ⟨t.cap, some len⟩

/-- The first while-let loop of get_tkn over the ready tokens in pop
order: smaller tokens are dropped, an exact match is returned as is, a
larger token is size-restricted and returned. -/
def drainReady : List TxToken → Nat → Option TxToken
  | [], _ => none
  | t :: rest, len =>
      match compare t.sendLen len with
      | .lt => drainReady rest len
      | .eq => some t
      | .gt => some (t.restrSize len)

/-- The second while-let loop over the completion channel: each pulled
token is reset first, then compared exactly like a ready token. -/
def drainChannel : List TxToken → Nat → Option TxToken
  | [], _ => none
  | b :: rest, len =>
      let t := b.reset
      match compare t.sendLen len with
      | .lt => drainChannel rest len
      | .eq => some t
      | .gt => some (t.restrSize len)

/-- TxQueues::get_tkn: drain the ready Vec from the back, then (after a
poll if and only if the channel is empty) drain the channel, then
allocate a fresh single-descriptor token of exactly the requested
length on the first ring; every returned ring index is 0, and none is
returned only when that allocation fails. -/
def getTkn (ready chan pollExtra : List TxToken) (allocOk : Bool)
    (len : Nat) : Option (TxToken × Nat) :=
  match drainReady ready.reverse len with
  | some t => some (t, 0)
  | none =>
      let chanEff := if chan.isEmpty then pollExtra else chan
      match drainChannel chanEff len with
      | some t => some (t, 0)
      | none => if allocOk then some (⟨len, none⟩, 0) else none

/-- C6: tokens drawn from the ready sequence and, after the conditional
poll, from the reset completion channel are compared by send capacity
against the required length: strictly smaller is discarded, equal is
returned unshrunk, strictly greater is shrunk to the required length
and returned; when nothing qualifies a fresh token of exactly the
required length is allocated, None is returned only if that allocation
fails, and every returned ring index is 0. -/
theorem get_tkn_spec :
    (∀ (ready : List TxToken) (t : TxToken) chan pe ok len,
      t.sendLen = len →
      getTkn (ready ++ [t]) chan pe ok len = some (t, 0)) ∧
    (∀ (ready : List TxToken) (t : TxToken) chan pe ok len,
      len < t.sendLen →
      getTkn (ready ++ [t]) chan pe ok len =
        some (t.restrSize len, 0)) ∧
    (∀ (ready : List TxToken) (t : TxToken) chan pe ok len,
      t.sendLen < len →
      getTkn (ready ++ [t]) chan pe ok len =
        getTkn ready chan pe ok len) ∧
    (∀ (t : TxToken) (chan : List TxToken) len,
      t.reset.sendLen = len →
      drainChannel (t :: chan) len = some t.reset) ∧
    (∀ (t : TxToken) (chan : List TxToken) len,
      len < t.reset.sendLen →
      drainChannel (t :: chan) len = some (t.reset.restrSize len)) ∧
    (∀ (t : TxToken) (chan : List TxToken) len,
      t.reset.sendLen < len →
      drainChannel (t :: chan) len = drainChannel chan len) ∧
    (∀ (ready chan pe : List TxToken) len,
      drainReady ready.reverse len = none →
      drainChannel (if chan.isEmpty then pe else chan) len = none →
      getTkn ready chan pe true len = some (⟨len, none⟩, 0) ∧
      getTkn ready chan pe false len = none) ∧
    (∀ (ready chan pe : List TxToken) ok len,
      getTkn ready chan pe ok len = none → ok = false) ∧
    (∀ (ready chan pe : List TxToken) ok len (t : TxToken) (i : Nat),
      getTkn ready chan pe ok len = some (t, i) → i = 0) := by
  refine ⟨?_, ?_, ?_, ?_, ?_, ?_, ?_, ?_, ?_⟩
  · intro ready t chan pe ok len h
    have hc : compare t.sendLen len = .eq := Nat.compare_eq_eq.mpr h
    simp [getTkn, List.reverse_append, drainReady, hc]
  · intro ready t chan pe ok len h
    have hc : compare t.sendLen len = .gt := Nat.compare_eq_gt.mpr h
    simp [getTkn, List.reverse_append, drainReady, hc]
  · intro ready t chan pe ok len h
    have hc : compare t.sendLen len = .lt := Nat.compare_eq_lt.mpr h
    simp [getTkn, List.reverse_append, drainReady, hc]
  · intro t chan len h
    have hc : compare t.reset.sendLen len = .eq := Nat.compare_eq_eq.mpr h
    simp [drainChannel, hc]
  · intro t chan len h
    have hc : compare t.reset.sendLen len = .gt := Nat.compare_eq_gt.mpr h
    simp [drainChannel, hc]
  · intro t chan len h
    have hc : compare t.reset.sendLen len = .lt := Nat.compare_eq_lt.mpr h
    simp [drainChannel, hc]
  · intro ready chan pe len h1 h2
    simp only [List.isEmpty_iff] at h2
    constructor <;> simp [getTkn, h1, h2]
  · intro ready chan pe ok len h
    cases hr : drainReady ready.reverse len with
    | some t => simp [getTkn, hr] at h
    | none =>
        cases hc : drainChannel (if chan.isEmpty then pe else chan) len with
        | some t =>
            simp only [List.isEmpty_iff] at hc
            simp [getTkn, hr, hc] at h
        | none =>
            simp only [List.isEmpty_iff] at hc
            cases ok
            · rfl
            · simp [getTkn, hr, hc] at h
  · intro ready chan pe ok len t i h
    cases hr : drainReady ready.reverse len with
    | some u => simp [getTkn, hr] at h; exact h.2.symm
    | none =>
        cases hc : drainChannel (if chan.isEmpty then pe else chan) len with
        | some u =>
            simp only [List.isEmpty_iff] at hc
            simp [getTkn, hr, hc] at h
            exact h.2.symm
        | none =>
            simp only [List.isEmpty_iff] at hc
            cases ok
            · simp [getTkn, hr, hc] at h
            · simp [getTkn, hr, hc] at h
              exact h.2.symm

/-- Witness for C6: a ready token of capacity 8 is returned unshrunk
for a request of 8, and with everything empty a request of 5 allocates
a fresh token of exactly 5 when allocation succeeds and yields none
when it fails. -/
theorem get_tkn_spec_witness :
    getTkn ([] ++ [TxToken.mk 8 Option.none]) [] [] true 8 =
      some (TxToken.mk 8 Option.none, 0) ∧
    getTkn [] [] [] true 5 = some (TxToken.mk 5 Option.none, 0) ∧
    getTkn [] [] [] false 5 = none :=
  ⟨get_tkn_spec.1 [] (TxToken.mk 8 Option.none) [] [] true 8 (by decide),
    (get_tkn_spec.2.2.2.2.2.2.1 [] [] [] 5 (by decide) (by decide)).1,
    (get_tkn_spec.2.2.2.2.2.2.1 [] [] [] 5 (by decide) (by decide)).2⟩

end VirtioNet
